import Mathlib

/-!
Shallow embedding of `append_suite2p.py` (rly/aibs-nwb1-to-nwb2): a script
that merges an NWB 1.0 legacy HDF5 file with a suite2p-produced NWB 2.0
file into a new NWB 2.0 file.

Modelling conventions:
* Python exceptions are an explicit error type `PyErr`; fallible code runs
  in `Except PyErr`.
* HDF5 scalar dataset values are `PyVal` (a Python `str`, a `bytes`, or
  any other object).  Numeric array datasets are `List Int` (their values
  are only passed through, except for the `astype(np.uint32)` cast, which
  acts on integers).
* `bytes.decode("utf-8")` is a real UTF-8 decoder over byte lists; on
  invalid input it raises `UnicodeDecodeError` (in Python a subclass of
  `ValueError`).
* `datetime.strptime` and `pytz` localization are symbolic: a parsed value
  records the format string and the raw text, a localized value records
  the timezone name.  The claims under study are about which fields are
  parsed with which format and localized into which zone, not about
  calendar arithmetic, which lives in the C library.
* The pynwb object model keeps, for each graftable container, a `parent`
  pointer; attaching a container that still has a parent raises, as hdmf
  does, and `reset_parent` clears the pointer.
-/

/-- Python exceptions that the script can raise. `unicodeDecodeError`
is a separate constructor but counts as a `ValueError` (Python class
hierarchy: `UnicodeDecodeError < UnicodeError < ValueError`). -/
inductive PyErr where
  | valueError (msg : String)
  | keyError (key : String)
  | indexError
  | unicodeDecodeError
  | typeError (msg : String)
  deriving Repr, DecidableEq

/-- Whether an exception is (an instance of a subclass of) `ValueError`. -/
def PyErr.isValueError : PyErr → Bool
  | .valueError _ => true
  | .unicodeDecodeError => true
  | _ => false

/-- A scalar value read out of an HDF5 dataset, as seen by Python:
a `str`, a `bytes` object (list of byte values), or any other object
(numeric scalar, array, ...), abstracted by a tag. -/
inductive PyVal where
  | str (s : String)
  | bytes (b : List Nat)
  | pyObject (tag : Nat)
  deriving Repr, DecidableEq

instance {ε α : Type} [DecidableEq ε] [DecidableEq α] : DecidableEq (Except ε α) := fun a b =>
  match a, b with
  | .ok x, .ok y => if h : x = y then .isTrue (by rw [h]) else .isFalse (by simp [h])
  | .error x, .error y => if h : x = y then .isTrue (by rw [h]) else .isFalse (by simp [h])
  | .ok _, .error _ => .isFalse (by simp)
  | .error _, .ok _ => .isFalse (by simp)

/-- Whether a byte is a UTF-8 continuation byte (10xxxxxx). -/
def utf8Cont (b : Nat) : Bool := 0x80 ≤ b && b < 0xC0

/-- Strict UTF-8 decoding of a byte list, as Python `bytes.decode("utf-8")`
performs it: rejects continuation bytes in lead position, overlong
encodings, surrogates and code points above U+10FFFF. -/
def utf8DecodeList : List Nat → Option (List Char)
  | [] => some []
  | b :: rest =>
    if b < 0x80 then
      (utf8DecodeList rest).map (fun cs => Char.ofNat b :: cs)
    else if b < 0xC2 then none
    else if b < 0xE0 then
      match rest with
      | b1 :: rest1 =>
        if utf8Cont b1 then
          (utf8DecodeList rest1).map (fun cs =>
            Char.ofNat ((b - 0xC0) * 64 + (b1 - 0x80)) :: cs)
        else none
      | [] => none
    else if b < 0xF0 then
      match rest with
      | b1 :: b2 :: rest2 =>
        if utf8Cont b1 && utf8Cont b2
            && !(b == 0xE0 && b1 < 0xA0) && !(b == 0xED && 0xA0 ≤ b1) then
          (utf8DecodeList rest2).map (fun cs =>
            Char.ofNat ((b - 0xE0) * 4096 + (b1 - 0x80) * 64 + (b2 - 0x80)) :: cs)
        else none
      | _ => none
    else if b < 0xF5 then
      match rest with
      | b1 :: b2 :: b3 :: rest3 =>
        if utf8Cont b1 && utf8Cont b2 && utf8Cont b3
            && !(b == 0xF0 && b1 < 0x90) && !(b == 0xF4 && 0x90 ≤ b1) then
          (utf8DecodeList rest3).map (fun cs =>
            Char.ofNat ((b - 0xF0) * 262144 + (b1 - 0x80) * 4096
              + (b2 - 0x80) * 64 + (b3 - 0x80)) :: cs)
        else none
      | _ => none
    else none

/-- Python `b.decode("utf-8")`: the decoded string, or `UnicodeDecodeError`. -/
def pyDecodeUtf8 (b : List Nat) : Except PyErr String :=
  match utf8DecodeList b with
  | some cs => .ok (String.mk cs)
  | none => .error .unicodeDecodeError

/-- Embedding of `_unicode` (append_suite2p.py lines 74-81): return `str`
input unchanged, decode `bytes` as UTF-8, raise `ValueError` otherwise. -/
def _unicode (s : PyVal) : Except PyErr String :=
  match s with
  | .str t => .ok t
  | .bytes b => pyDecodeUtf8 b
  | .pyObject _ => .error (.valueError "Expected unicode or ascii string")

/-- Embedding of `os.path.split` (POSIX): split off everything after the
last slash as the tail; the head keeps no trailing slashes unless it
consists only of slashes. -/
def os_path_split (p : String) : String × String :=
  let rev := p.data.reverse
  let tailRev := rev.takeWhile (fun c => c ≠ '/')
  let headAll := (rev.dropWhile (fun c => c ≠ '/')).reverse
  let head :=
    if headAll.all (fun c => c = '/') then headAll
    else (headAll.reverse.dropWhile (fun c => c = '/')).reverse
  (String.mk head, String.mk tailRev.reverse)

/-- Whether a string starts with a slash (for `os.path.join`). -/
def startsWithSlash (s : String) : Bool :=
  match s.data with
  | [] => false
  | c :: _ => c = '/'

/-- Whether a string ends with a slash (for `os.path.join`). -/
def endsWithSlash (s : String) : Bool :=
  match s.data.getLast? with
  | some c => c = '/'
  | none => false

/-- Embedding of the two-argument `os.path.join` (POSIX). -/
def os_path_join (a b : String) : String :=
  if startsWithSlash b then b
  else if a = "" || endsWithSlash a then a ++ b
  else a ++ "/" ++ b

/-- The temporary path computed at append_suite2p.py line 29:
`os.path.join(os.path.split(path_output)[0], "temp.nwb")`. -/
def temp_merged_path (path_output : String) : String :=
  os_path_join (os_path_split path_output).1 "temp.nwb"

/-- Embedding of `pathlib.Path(p).name`: the last path component. -/
def pathlib_name (p : String) : String := (os_path_split p).2

/-! ### Datetimes (symbolic) -/

/-- Result of `datetime.strptime(raw, fmt)`: a naive datetime, kept
symbolic as the pair of the format and the raw text. -/
structure NaiveDatetime where
  fmt : String
  raw : String
  deriving Repr, DecidableEq

/-- Embedding of `datetime.strptime`. -/
def strptime (raw fmt : String) : NaiveDatetime := ⟨fmt, raw⟩

/-- A timezone-aware datetime value as the script produces or copies it:
a naive datetime localized by `pytz.timezone(tz).localize`, a value
carried over from the suite2p file, or `datetime.now(timezone.utc).astimezone()`. -/
inductive PyDateTime where
  | localized (tz : String) (naive : NaiveDatetime)
  | fromSuite2p (tag : Nat)
  | nowLocal
  deriving Repr, DecidableEq

/-- Embedding of `pytz.timezone(tz).localize(d)`. -/
def tzLocalize (tz : String) (d : NaiveDatetime) : PyDateTime := .localized tz d

/-! ### The legacy NWB 1.0 HDF5 file

The script reads the legacy file only at fixed paths (its own comment:
"this code assumes that relevant data lives in particular places and only
those places"), so the file is embedded as one structure per group read. -/

/-- An NWB 1 timeseries group (`data`, `timestamps` datasets and
`description`, `comments` attributes). -/
structure H5TimeSeriesGroup where
  data : List Int
  timestamps : List Int
  description : PyVal
  comments : PyVal
  deriving Repr, DecidableEq

/-- An NWB 1 stimulus template group (an image stack). -/
structure H5TemplateGroup where
  data : List Int
  dimension : List Int
  field_of_view : List Int
  format : PyVal
  description : PyVal
  comments : PyVal
  deriving Repr, DecidableEq

/-- An NWB 1 stimulus presentation group. -/
structure H5PresentationGroup where
  data : List Int
  timestamps : List Int
  description : PyVal
  comments : PyVal
  deriving Repr, DecidableEq

/-- The `/general/subject` group of the legacy file. -/
structure H5SubjectGroup where
  age : PyVal
  description : PyVal
  genotype : PyVal
  sex : PyVal
  species : PyVal
  subject_id : PyVal
  deriving Repr, DecidableEq

/-- The legacy NWB 1.0 file, restricted to the fixed paths the script
reads. `file_create_date` is an array dataset (indexed with `[0]`);
`devices` is the ordered key list of `/general/devices`. -/
structure H5File where
  file_create_date : List PyVal
  session_start_time : PyVal
  identifier : PyVal
  session_description : PyVal
  running_speed : H5TimeSeriesGroup
  locally_sparse_noise_image_stack : H5TemplateGroup
  natural_movie_one_image_stack : H5TemplateGroup
  natural_movie_two_image_stack : H5TemplateGroup
  locally_sparse_noise_stimulus : H5PresentationGroup
  natural_movie_one_stimulus : H5PresentationGroup
  natural_movie_two_stimulus : H5PresentationGroup
  spontaneous_stimulus : H5PresentationGroup
  subject : H5SubjectGroup
  institution : PyVal
  session_id : PyVal
  devices : List String
  deriving Repr, DecidableEq

/-- Lookup of `f[f"/stimulus/templates/{name}"]`: the legacy file has
exactly the three image-stack groups. -/
def h5StimTemplate (f : H5File) (name : String) : Option H5TemplateGroup :=
  if name = "locally_sparse_noise_image_stack" then some f.locally_sparse_noise_image_stack
  else if name = "natural_movie_one_image_stack" then some f.natural_movie_one_image_stack
  else if name = "natural_movie_two_image_stack" then some f.natural_movie_two_image_stack
  else none

/-- Lookup of `f[f"/stimulus/presentation/{name}"]`. -/
def h5StimPresentation (f : H5File) (name : String) : Option H5PresentationGroup :=
  if name = "locally_sparse_noise_stimulus" then some f.locally_sparse_noise_stimulus
  else if name = "natural_movie_one_stimulus" then some f.natural_movie_one_stimulus
  else if name = "natural_movie_two_stimulus" then some f.natural_movie_two_stimulus
  else if name = "spontaneous_stimulus" then some f.spontaneous_stimulus
  else none

/-! ### The pynwb object model (output side) -/

/-- A `pynwb.file.Subject`. -/
structure Subject where
  age : String
  description : String
  genotype : String
  sex : String
  species : String
  subject_id : String
  deriving Repr, DecidableEq

/-- A `pynwb.TimeSeries` for the running-speed data. -/
structure NWBTimeSeries where
  name : String
  data : List Int
  timestamps : List Int
  unit : String
  description : String
  comments : String
  deriving Repr, DecidableEq

/-- A `pynwb.image.OpticalSeries` stimulus template.  The float constants
(`starting_time = 0.0`, `rate = 0.0`, `distance = -1.0`) are modelled as
integers; the claims never compute with them. -/
structure OpticalSeries where
  name : String
  data : List Int
  dimension : List Int
  field_of_view : List Int
  format : String
  starting_time : Int
  rate : Int
  description : String
  comments : String
  distance : Int
  orientation : String
  unit : String
  deriving Repr, DecidableEq

/-- A stimulus series added to the output file: a `pynwb.image.IndexSeries`
(holding the `OpticalSeries` its `indexed_timeseries` argument links to) or
a `pynwb.misc.IntervalSeries`. -/
inductive StimulusSeries where
  | indexSeries (name : String) (data : List Int) (timestamps : List Int)
      (indexed_timeseries : OpticalSeries) (description : String)
      (comments : String) (unit : String)
  | intervalSeries (name : String) (data : List Int) (timestamps : List Int)
      (description : String) (comments : String)
  deriving Repr, DecidableEq

/-- A suite2p `PlaneSegmentation`, keeping only what the script touches:
its `reference_images` collection (image references as tags). -/
structure PlaneSegmentation where
  reference_images : List Nat
  deriving Repr, DecidableEq

/-- A data interface held by a processing module: an `ImageSegmentation`
(named plane segmentations), a `BehavioralTimeSeries`, or anything else. -/
inductive NWBInterface where
  | imageSegmentation (planes : List (String × PlaneSegmentation))
  | behavioralTimeSeries (series : List NWBTimeSeries)
  | otherInterface (tag : Nat)
  deriving Repr, DecidableEq

/-- A processing module.  `parent` is the id of the `NWBFile` owning it
(`none` after `reset_parent`). -/
structure ProcessingModule where
  parent : Option Nat
  description : String
  interfaces : List (String × NWBInterface)
  deriving Repr, DecidableEq

/-- The suite2p `TwoPhotonSeries` acquisition, abstracted to its ownership
pointer and a payload tag. -/
structure TwoPhotonSeries where
  parent : Option Nat
  tag : Nat
  deriving Repr, DecidableEq

/-- The suite2p `ImagingPlane`: ownership pointer, the `device` entry of
its `fields` dict (a device name; `none` when popped), and a payload tag. -/
structure ImagingPlane where
  parent : Option Nat
  device : Option String
  tag : Nat
  deriving Repr, DecidableEq

/-- A `pynwb.NWBFile`, restricted to the state the script reads or
writes.  Dicts keep insertion order as association lists; `devices` is the
ordered list of device names (a `Device` carries nothing but its name). -/
structure NWBFile where
  id : Nat
  identifier : String := ""
  session_description : String := ""
  file_create_date : List PyDateTime := []
  session_start_time : Option PyDateTime := none
  subject : Option Subject := none
  institution : Option String := none
  session_id : Option String := none
  devices : List String := []
  stimulus_templates : List OpticalSeries := []
  stimulus : List StimulusSeries := []
  processing : List (String × ProcessingModule) := []
  acquisition : List (String × TwoPhotonSeries) := []
  imaging_planes : List (String × ImagingPlane) := []
  deriving Repr, DecidableEq

/-- Ordered-dict lookup. -/
def dlookup {α : Type} (k : String) : List (String × α) → Option α
  | [] => none
  | (k2, v) :: rest => if k = k2 then some v else dlookup k rest

/-- Ordered-dict update of the first binding of `k` (used to model
in-place mutation of an object held in a pynwb dict). -/
def dupdate {α : Type} (k : String) (v : α) : List (String × α) → List (String × α)
  | [] => []
  | (k2, w) :: rest => if k = k2 then (k2, v) :: rest else (k2, w) :: dupdate k v rest

/-- Python `d[k]`: lookup or `KeyError`. -/
def getKey {α : Type} (k : String) (m : List (String × α)) : Except PyErr α :=
  match dlookup k m with
  | some v => .ok v
  | none => .error (.keyError k)

/-- Python list indexing `xs[i]`: `IndexError` when out of range. -/
def pyIndex {α : Type} (xs : List α) (i : Nat) : Except PyErr α :=
  match xs[i]? with
  | some v => .ok v
  | none => .error .indexError

/-- Guard modelling the hdmf single-ownership rule: attaching a container
that still has a parent raises `ValueError`; `reset_parent` must have run
first. -/
def requireUnparented (p : Option Nat) : Except PyErr Unit :=
  match p with
  | some _ => .error (.valueError "cannot reassign container parent")
  | none => .ok ()

/-! ### The script, function by function -/

/-- The format string of append_suite2p.py line 87. -/
def strptime_format : String := "%a %b %d %H:%M:%S %Y"

/-- Embedding of `create_out_nwbfile` (lines 84-113).  `freshId` is the
identity of the newly constructed Python object.  Reads and conversions
happen in source order: `/file_create_date[0]` is parsed and localized,
the three-entry `file_create_date` list is formed, `/session_start_time`
is parsed and localized, then the `NWBFile` constructor decodes
`/identifier` and `/session_description`. -/
def create_out_nwbfile (f : H5File) (in_nwbfile : NWBFile) (freshId : Nat) :
    Except PyErr NWBFile := do
  let v0 ← pyIndex f.file_create_date 0
  let s0 ← _unicode v0
  let old_file_create_date := tzLocalize "US/Pacific" (strptime s0 strptime_format)
  let d1 ← pyIndex in_nwbfile.file_create_date 0
  let file_create_date := [old_file_create_date, d1, PyDateTime.nowLocal]
  let sst ← _unicode f.session_start_time
  let old_session_start_time := tzLocalize "US/Pacific" (strptime sst strptime_format)
  let idStr ← _unicode f.identifier
  let descStr ← _unicode f.session_description
  return { id := freshId
           identifier := idStr
           session_description := descStr
           file_create_date := file_create_date
           session_start_time := some old_session_start_time }

/-- Embedding of `add_running_speed_timeseries` (lines 116-135). -/
def add_running_speed_timeseries (out_nwbfile : NWBFile) (f : H5File) :
    Except PyErr NWBFile := do
  let old_running_speed := f.running_speed
  let desc ← _unicode old_running_speed.description
  let comm ← _unicode old_running_speed.comments
  let ts : NWBTimeSeries :=
    { name := "running_speed", data := old_running_speed.data,
      timestamps := old_running_speed.timestamps, unit := "frame",
      description := desc, comments := comm }
  let behavioral_timeseries := NWBInterface.behavioralTimeSeries [ts]
  let behavior_module : ProcessingModule :=
    { parent := some out_nwbfile.id, description := "processed behavioral data",
      interfaces := [("BehavioralTimeSeries", behavioral_timeseries)] }
  return { out_nwbfile with
           processing := out_nwbfile.processing ++ [("behavior", behavior_module)] }

/-- Embedding of `.astype(np.uint32)` on an integer array: the C cast,
each value reduced modulo `2 ^ 32` (`Int.emod` is nonnegative here). -/
def astype_uint32 (xs : List Int) : List Int :=
  xs.map (fun x => x % (2 ^ 32 : Int))

/-- Embedding of the inner `add_stimulus` closure (lines 141-193): add an
`OpticalSeries` template built from the legacy image stack, then an
`IndexSeries` presentation whose `indexed_timeseries` links to it. -/
def add_stimulus (out_nwbfile : NWBFile) (f : H5File)
    (template_name presentation_name : String) : Except PyErr NWBFile := do
  let old_template ← match h5StimTemplate f template_name with
    | some g => pure g
    | none => throw (.keyError template_name)
  let fmtStr ← _unicode old_template.format
  let tDesc ← _unicode old_template.description
  let tComm ← _unicode old_template.comments
  let new_template : OpticalSeries :=
    { name := pathlib_name ("/stimulus/templates/" ++ template_name)
      data := old_template.data
      dimension := old_template.dimension
      field_of_view := old_template.field_of_view
      format := fmtStr
      starting_time := 0
      rate := 0
      description := tDesc
      comments := tComm
      distance := -1
      orientation := "N/A"
      unit := "N/A" }
  let out1 := { out_nwbfile with
                stimulus_templates := out_nwbfile.stimulus_templates ++ [new_template] }
  let old_presentation ← match h5StimPresentation f presentation_name with
    | some g => pure g
    | none => throw (.keyError presentation_name)
  let pDesc ← _unicode old_presentation.description
  let pComm ← _unicode old_presentation.comments
  let new_presentation := StimulusSeries.indexSeries
    (pathlib_name ("/stimulus/presentation/" ++ presentation_name))
    (astype_uint32 old_presentation.data)
    old_presentation.timestamps
    new_template pDesc pComm "N/A"
  return { out1 with stimulus := out1.stimulus ++ [new_presentation] }

/-- Embedding of `add_stimuli` (lines 138-221): the three indexed
stimuli, then the spontaneous `IntervalSeries`. -/
def add_stimuli (out_nwbfile : NWBFile) (f : H5File) : Except PyErr NWBFile := do
  let out ← add_stimulus out_nwbfile f
    "locally_sparse_noise_image_stack" "locally_sparse_noise_stimulus"
  let out ← add_stimulus out f
    "natural_movie_one_image_stack" "natural_movie_one_stimulus"
  let out ← add_stimulus out f
    "natural_movie_two_image_stack" "natural_movie_two_stimulus"
  let old_spont_presentation := f.spontaneous_stimulus
  let sDesc ← _unicode old_spont_presentation.description
  let sComm ← _unicode old_spont_presentation.comments
  let new_spont_presentation := StimulusSeries.intervalSeries
    "spontaneous_stimulus" old_spont_presentation.data
    old_spont_presentation.timestamps sDesc sComm
  return { out with stimulus := out.stimulus ++ [new_spont_presentation] }

/-- Embedding of `add_subject` (lines 224-245): decode the sex value, map
"male" to "M" and "female" to "F", raise `ValueError` on anything else,
then build the `Subject` (decoding its remaining fields in keyword order)
and set it on the file. -/
def add_subject (in_nwbfile : NWBFile) (f : H5File) : Except PyErr NWBFile := do
  let old_subject := f.subject
  let sex ← _unicode old_subject.sex
  let new_sex ←
    if sex = "male" then pure "M"
    else if sex = "female" then pure "F"
    else throw (.valueError ("Unexpected value for subject sex in NWB 1 file: " ++ sex))
  let age ← _unicode old_subject.age
  let description ← _unicode old_subject.description
  let genotype ← _unicode old_subject.genotype
  let species ← _unicode old_subject.species
  let subject_id ← _unicode old_subject.subject_id
  let new_subject : Subject :=
    { age := age, description := description, genotype := genotype,
      sex := new_sex, species := species, subject_id := subject_id }
  return { in_nwbfile with subject := some new_subject }

/-- Embedding of `add_general` (lines 248-270): institution, session id,
then one `create_device` per key of `/general/devices`, in key order. -/
def add_general (out_nwbfile : NWBFile) (f : H5File) : Except PyErr NWBFile := do
  let inst ← _unicode f.institution
  let out := { out_nwbfile with institution := some inst }
  let sid ← _unicode f.session_id
  let out := { out with session_id := some sid }
  return { out with devices := out.devices ++ f.devices }

/-- Embedding of `add_suite2p_output` (lines 273-297).  Each of the three
grafts runs `reset_parent` on the container taken from the suite2p file,
then attaches it to the output file: the attach guard (`requireUnparented`,
hdmf single ownership) and the duplicate-name check run as in pynwb, and
ownership passes to `out_nwbfile.id`.  Then the placeholder device of the
grafted `ImagingPlane` is popped from its `fields` dict and replaced by the
output device named "2-photon microscope" (dict lookup, `KeyError` when
absent), and the `reference_images` of the grafted `PlaneSegmentation` are
cleared. -/
def add_suite2p_output (out_nwbfile in_nwbfile : NWBFile) : Except PyErr NWBFile := do
  let ophys0 ← getKey "ophys" in_nwbfile.processing
  let ophys := { ophys0 with parent := none }
  requireUnparented ophys.parent
  let _ ← match dlookup "ophys" out_nwbfile.processing with
    | some _ => throw (.valueError "ophys already exists in NWBFile")
    | none => pure ()
  let out := { out_nwbfile with
               processing := out_nwbfile.processing
                 ++ [("ophys", { ophys with parent := some out_nwbfile.id })] }
  let tps0 ← getKey "TwoPhotonSeries" in_nwbfile.acquisition
  let tps := { tps0 with parent := none }
  requireUnparented tps.parent
  let _ ← match dlookup "TwoPhotonSeries" out.acquisition with
    | some _ => throw (.valueError "TwoPhotonSeries already exists in NWBFile")
    | none => pure ()
  let out := { out with
               acquisition := out.acquisition
                 ++ [("TwoPhotonSeries", { tps with parent := some out.id })] }
  let ip0 ← getKey "ImagingPlane" in_nwbfile.imaging_planes
  let ip := { ip0 with parent := none }
  requireUnparented ip.parent
  let _ ← match dlookup "ImagingPlane" out.imaging_planes with
    | some _ => throw (.valueError "ImagingPlane already exists in NWBFile")
    | none => pure ()
  let out := { out with
               imaging_planes := out.imaging_planes
                 ++ [("ImagingPlane", { ip with parent := some out.id })] }
  let plane ← getKey "ImagingPlane" out.imaging_planes
  let _ ← match plane.device with
    | some d => pure d
    | none => throw (.keyError "device")
  let plane := { plane with device := none }
  let dev ← if out.devices.contains "2-photon microscope"
    then pure "2-photon microscope"
    else throw (.keyError "2-photon microscope")
  let plane := { plane with device := some dev }
  let out := { out with imaging_planes := dupdate "ImagingPlane" plane out.imaging_planes }
  let ophysM ← getKey "ophys" out.processing
  let iseg ← match dlookup "ImageSegmentation" ophysM.interfaces with
    | some (NWBInterface.imageSegmentation planes) => pure planes
    | some _ => throw (.typeError "ImageSegmentation is not an ImageSegmentation")
    | none => throw (.keyError "ImageSegmentation")
  let ps ← getKey "PlaneSegmentation" iseg
  let ps := { ps with reference_images := [] }
  let iseg := dupdate "PlaneSegmentation" ps iseg
  let ophysM := { ophysM with
                  interfaces := dupdate "ImageSegmentation"
                    (NWBInterface.imageSegmentation iseg) ophysM.interfaces }
  return { out with processing := dupdate "ophys" ophysM out.processing }

namespace AppendSuite2p

/-- Embedding of `main` (lines 25-72).  The result is the list of files
the run leaves on disk (the temporary file and the export target) paired
with the exception, if one propagated.  The temporary file is written only
after the five build steps succeed; `os.remove` runs only after the export
completes, so a failing step leaves the temporary file (when already
written) behind. -/
def main (f : H5File) (in_nwbfile : NWBFile) (path_output : String)
    (freshId : Nat) : List String × Option PyErr :=
  let temp_merged := temp_merged_path path_output
  match create_out_nwbfile f in_nwbfile freshId with
  | .error e => ([], some e)
  | .ok out1 =>
  match add_running_speed_timeseries out1 f with
  | .error e => ([], some e)
  | .ok out2 =>
  match add_stimuli out2 f with
  | .error e => ([], some e)
  | .ok out3 =>
  match add_subject out3 f with
  | .error e => ([], some e)
  | .ok out4 =>
  match add_general out4 f with
  | .error e => ([], some e)
  | .ok out5 =>
  let fs := [temp_merged]
  match add_suite2p_output out5 in_nwbfile with
  | .error e => (fs, some e)
  | .ok _export_nwbfile =>
  let fs := if path_output ∈ fs then fs else fs ++ [path_output]
  (fs.erase temp_merged, none)

end AppendSuite2p

/-! ### Sample inputs used by the witness theorems -/

/-- A concrete legacy subject group. -/
def sampleSubject : H5SubjectGroup :=
  { age := .str "120 days", description := .str "healthy",
    genotype := .str "wt", sex := .str "male",
    species := .str "Mus musculus", subject_id := .str "12345" }

/-- A concrete legacy image-stack group. -/
def sampleTemplate : H5TemplateGroup :=
  { data := [1, 2], dimension := [2, 1], field_of_view := [3],
    format := .str "raw", description := .str "td", comments := .str "tc" }

/-- A concrete legacy presentation group. -/
def samplePresentation : H5PresentationGroup :=
  { data := [0, 1], timestamps := [10, 20],
    description := .str "pd", comments := .str "pc" }

/-- A concrete legacy NWB 1.0 file. -/
def sampleH5 : H5File :=
  { file_create_date := [.str "Tue Jan 26 12:28:49 2016"]
    session_start_time := .str "Tue Jan 26 12:00:00 2016"
    identifier := .str "ident"
    session_description := .str "sess"
    running_speed := { data := [1], timestamps := [2],
                       description := .str "rd", comments := .str "rc" }
    locally_sparse_noise_image_stack := sampleTemplate
    natural_movie_one_image_stack := sampleTemplate
    natural_movie_two_image_stack := sampleTemplate
    locally_sparse_noise_stimulus := samplePresentation
    natural_movie_one_stimulus := samplePresentation
    natural_movie_two_stimulus := samplePresentation
    spontaneous_stimulus := samplePresentation
    subject := sampleSubject
    institution := .str "AIBS"
    session_id := .str "sid"
    devices := ["2-photon microscope"] }

/-- A concrete suite2p output file: one ophys module with an
ImageSegmentation, one TwoPhotonSeries, one ImagingPlane with a
placeholder device, all owned by the file (id 1). -/
def sampleSuite2p : NWBFile :=
  { id := 1
    file_create_date := [.fromSuite2p 0]
    processing := [("ophys",
      { parent := some 1, description := "ophys module",
        interfaces := [("ImageSegmentation",
          .imageSegmentation
            [("PlaneSegmentation", { reference_images := [5] })])] })]
    acquisition := [("TwoPhotonSeries", { parent := some 1, tag := 7 })]
    imaging_planes := [("ImagingPlane",
      { parent := some 1, device := some "Microscope", tag := 3 })] }

/-! ### Proof infrastructure -/

@[simp] theorem pybind_ok {α β : Type} (a : α) (g : α → Except PyErr β) :
    (do let x ← Except.ok a; g x : Except PyErr β) = g a := rfl

@[simp] theorem pybind_error {α β : Type} (e : PyErr) (g : α → Except PyErr β) :
    (do let x ← Except.error e; g x : Except PyErr β) = Except.error e := rfl

@[simp] theorem pypure {α : Type} (a : α) : (pure a : Except PyErr α) = Except.ok a := rfl

@[simp] theorem pythrow {α : Type} (e : PyErr) :
    (throw e : Except PyErr α) = Except.error e := rfl

/-- Every exception `_unicode` raises is a `ValueError` (counting
`UnicodeDecodeError`, a `ValueError` subclass). -/
theorem unicode_error_isValueError (v : PyVal) (e : PyErr)
    (h : _unicode v = .error e) : e.isValueError = true := by
  rcases v with t | b | n
  · cases h
  · simp only [_unicode, pyDecodeUtf8] at h
    cases hdec : utf8DecodeList b with
    | none =>
      rw [hdec] at h
      rw [Except.error.injEq] at h
      rw [← h]
      rfl
    | some cs => rw [hdec] at h; cases h
  · simp only [_unicode] at h
    rw [Except.error.injEq] at h
    rw [← h]
    rfl

/-! ### Claim C9: the `_unicode` helper -/

/-- C9, counterexample.  The claim states that `_unicode` raises if and
only if its input is neither `str` nor `bytes`.  That fails on the bytes
value `[255]`: it is a `bytes` object, yet `b"\xff".decode("utf-8")`
raises `UnicodeDecodeError`, so `_unicode` raises on it. -/
theorem C9_unicode_counterexample :
    ¬ ((∃ e, _unicode (PyVal.bytes [255]) = Except.error e) ↔
        (∀ t, PyVal.bytes [255] ≠ PyVal.str t)
          ∧ (∀ b, PyVal.bytes [255] ≠ PyVal.bytes b)) := by
  intro h
  have h1 : ∃ e, _unicode (PyVal.bytes [255]) = Except.error e :=
    ⟨.unicodeDecodeError, by decide⟩
  exact (h.mp h1).2 [255] rfl

/-- C9, amended.  `_unicode` returns `str` input unchanged; returns the
UTF-8 decoding of `bytes` input when the bytes are valid UTF-8; it raises
exactly when the input is neither `str` nor `bytes`, or is `bytes` whose
content is not valid UTF-8; every exception it raises is a `ValueError`
(`UnicodeDecodeError` is a `ValueError` subclass); and it is idempotent on
every value it returns. -/
theorem C9_unicode_amended (v : PyVal) :
    (∀ t, v = PyVal.str t → _unicode v = Except.ok t)
    ∧ (∀ b cs, v = PyVal.bytes b → utf8DecodeList b = some cs →
        _unicode v = Except.ok (String.mk cs))
    ∧ ((∃ e, _unicode v = Except.error e) ↔
        (((∀ t, v ≠ PyVal.str t) ∧ (∀ b, v ≠ PyVal.bytes b))
          ∨ (∃ b, v = PyVal.bytes b ∧ utf8DecodeList b = none)))
    ∧ (∀ e, _unicode v = Except.error e → PyErr.isValueError e = true)
    ∧ (∀ r, _unicode v = Except.ok r → _unicode (PyVal.str r) = Except.ok r) := by
  rcases v with t | b | n
  · refine ⟨?_, ?_, ?_, ?_, ?_⟩
    · intro t2 h
      cases h
      rfl
    · intro b cs h _
      cases h
    · constructor
      · rintro ⟨e, he⟩
        simp [_unicode] at he
      · rintro (⟨h1, _⟩ | ⟨b, hb, _⟩)
        · exact absurd rfl (h1 t)
        · cases hb
    · intro e he
      simp [_unicode] at he
    · intro r _
      rfl
  · refine ⟨?_, ?_, ?_, ?_, ?_⟩
    · intro t2 h
      cases h
    · intro b2 cs h hdec
      cases h
      simp [_unicode, pyDecodeUtf8, hdec]
    · constructor
      · rintro ⟨e, he⟩
        simp only [_unicode, pyDecodeUtf8] at he
        right
        refine ⟨b, rfl, ?_⟩
        cases hdec : utf8DecodeList b with
        | none => rfl
        | some cs => rw [hdec] at he; cases he
      · rintro (⟨_, h2⟩ | ⟨b2, hb2, hdec⟩)
        · exact absurd rfl (h2 b)
        · cases hb2
          exact ⟨.unicodeDecodeError, by simp [_unicode, pyDecodeUtf8, hdec]⟩
    · intro e he
      simp only [_unicode, pyDecodeUtf8] at he
      cases hdec : utf8DecodeList b with
      | none =>
        rw [hdec] at he
        rw [Except.error.injEq] at he
        rw [← he]
        rfl
      | some cs => rw [hdec] at he; cases he
    · intro r hr
      simp only [_unicode, pyDecodeUtf8] at hr
      cases hdec : utf8DecodeList b with
      | none => rw [hdec] at hr; cases hr
      | some cs => rfl
  · refine ⟨?_, ?_, ?_, ?_, ?_⟩
    · intro t2 h
      cases h
    · intro b cs h _
      cases h
    · constructor
      · intro _
        left
        refine ⟨?_, ?_⟩
        · intro t h
          cases h
        · intro b h
          cases h
      · intro _
        exact ⟨.valueError "Expected unicode or ascii string", rfl⟩
    · intro e he
      simp only [_unicode] at he
      rw [Except.error.injEq] at he
      rw [← he]
      rfl
    · intro r hr
      cases hr

/-- C9, witness for the amended theorem on a concrete input. -/
theorem C9_unicode_amended_witness :
    _unicode (PyVal.str "abc") = Except.ok "abc" :=
  (C9_unicode_amended (PyVal.str "abc")).1 "abc" rfl

/-! ### Claim C1: add_subject and the sex code -/

/-- C1.  For every value read from the legacy /general/subject/sex
dataset (the remaining five subject fields being decodable): when the
value decodes to "male" the subject is set with sex "M"; when it decodes
to "female", with sex "F"; `add_subject` raises exactly when the value
decodes to neither "male" nor "female" (including when it cannot be
decoded at all), the exception is then always a `ValueError`, and no
subject is set (the error return carries no updated file). -/
theorem C1_add_subject_sex (out : NWBFile) (f : H5File)
    (age desc geno spec sid : String)
    (hage : _unicode f.subject.age = .ok age)
    (hdesc : _unicode f.subject.description = .ok desc)
    (hgeno : _unicode f.subject.genotype = .ok geno)
    (hspec : _unicode f.subject.species = .ok spec)
    (hsid : _unicode f.subject.subject_id = .ok sid) :
    (_unicode f.subject.sex = .ok "male" →
      add_subject out f = .ok { out with subject := some ⟨age, desc, geno, "M", spec, sid⟩ })
    ∧ (_unicode f.subject.sex = .ok "female" →
      add_subject out f = .ok { out with subject := some ⟨age, desc, geno, "F", spec, sid⟩ })
    ∧ ((∃ e, add_subject out f = .error e) ↔
        (_unicode f.subject.sex ≠ .ok "male"
          ∧ _unicode f.subject.sex ≠ .ok "female"))
    ∧ (∀ e, add_subject out f = .error e → e.isValueError = true) := by
  refine ⟨?_, ?_, ?_, ?_⟩
  · intro hsex
    simp [add_subject, hsex, hage, hdesc, hgeno, hspec, hsid]
  · intro hsex
    simp [add_subject, hsex, hage, hdesc, hgeno, hspec, hsid]
  · constructor
    · rintro ⟨e, he⟩
      cases hsex : _unicode f.subject.sex with
      | error e2 =>
        constructor
        · intro h; cases h
        · intro h; cases h
      | ok s =>
        by_cases hm : s = "male"
        · subst hm
          simp [add_subject, hsex, hage, hdesc, hgeno, hspec, hsid] at he
        · by_cases hf : s = "female"
          · subst hf
            simp [add_subject, hsex, hage, hdesc, hgeno, hspec, hsid] at he
          · constructor
            · intro h
              rw [Except.ok.injEq] at h
              exact hm h
            · intro h
              rw [Except.ok.injEq] at h
              exact hf h
    · rintro ⟨hm, hf⟩
      cases hsex : _unicode f.subject.sex with
      | error e2 =>
        exact ⟨e2, by simp [add_subject, hsex]⟩
      | ok s =>
        have hms : s ≠ "male" := by
          intro h; rw [h] at hsex; exact hm hsex
        have hfs : s ≠ "female" := by
          intro h; rw [h] at hsex; exact hf hsex
        refine ⟨.valueError ("Unexpected value for subject sex in NWB 1 file: " ++ s), ?_⟩
        simp [add_subject, hsex, hms, hfs]
  · intro e he
    cases hsex : _unicode f.subject.sex with
    | error e2 =>
      simp [add_subject, hsex] at he
      rw [← he]
      exact unicode_error_isValueError _ _ hsex
    | ok s =>
      by_cases hm : s = "male"
      · subst hm
        simp [add_subject, hsex, hage, hdesc, hgeno, hspec, hsid] at he
      · by_cases hf : s = "female"
        · subst hf
          simp [add_subject, hsex, hage, hdesc, hgeno, hspec, hsid] at he
        · simp [add_subject, hsex, hm, hf] at he
          rw [← he]
          rfl

/-- C1, witness: on the sample legacy file the subject is set with
sex "M". -/
theorem C1_add_subject_sex_witness :
    add_subject { id := 0 } sampleH5 = .ok { id := 0, subject := some ⟨"120 days", "healthy", "wt", "M", "Mus musculus", "12345"⟩ } :=
  (C1_add_subject_sex { id := 0 } sampleH5
    "120 days" "healthy" "wt" "Mus musculus" "12345"
    rfl rfl rfl rfl rfl).1 rfl

/-! ### Claims C3 and C4: create_out_nwbfile -/

/-- C3.  `create_out_nwbfile` builds the output container with exactly the
three-entry `file_create_date` list, in order: the legacy
/file_create_date[0] parsed with format "%a %b %d %H:%M:%S %Y" and
localized to US/Pacific, then the first entry of the suite2p file
`file_create_date`, then the current time; and it copies identifier and
session_description verbatim (after bytes-to-unicode decoding) from the
legacy /identifier and /session_description datasets. -/
theorem C3_create_out_nwbfile_identity (f : H5File) (in_nwbfile : NWBFile)
    (freshId : Nat) (v0 : PyVal) (s0 idStr descStr sstStr : String) (d1 : PyDateTime)
    (hv0 : f.file_create_date[0]? = some v0)
    (hs0 : _unicode v0 = .ok s0)
    (hd1 : in_nwbfile.file_create_date[0]? = some d1)
    (hsst : _unicode f.session_start_time = .ok sstStr)
    (hid : _unicode f.identifier = .ok idStr)
    (hdesc : _unicode f.session_description = .ok descStr) :
    create_out_nwbfile f in_nwbfile freshId = .ok
      { id := freshId
        identifier := idStr
        session_description := descStr
        file_create_date := [tzLocalize "US/Pacific" (strptime s0 strptime_format),
                             d1, PyDateTime.nowLocal]
        session_start_time := some (tzLocalize "US/Pacific"
          (strptime sstStr strptime_format)) } := by
  simp [create_out_nwbfile, pyIndex, hv0, hs0, hd1, hsst, hid, hdesc]

/-- C3, witness on the sample files. -/
theorem C3_create_out_nwbfile_identity_witness :
    create_out_nwbfile sampleH5 sampleSuite2p 2 = .ok
      { id := 2
        identifier := "ident"
        session_description := "sess"
        file_create_date := [tzLocalize "US/Pacific"
                               (strptime "Tue Jan 26 12:28:49 2016" strptime_format),
                             .fromSuite2p 0, .nowLocal]
        session_start_time := some (tzLocalize "US/Pacific"
          (strptime "Tue Jan 26 12:00:00 2016" strptime_format)) } :=
  C3_create_out_nwbfile_identity sampleH5 sampleSuite2p 2
    (.str "Tue Jan 26 12:28:49 2016") "Tue Jan 26 12:28:49 2016"
    "ident" "sess" "Tue Jan 26 12:00:00 2016" (.fromSuite2p 0)
    rfl rfl rfl rfl rfl rfl

/-- C4.  For every legacy file whose /session_start_time dataset decodes
to a string (parsing is symbolic: `strptime` records format and text), the
output container session_start_time is that string parsed with format
"%a %b %d %H:%M:%S %Y" and localized into the fixed US/Pacific timezone. -/
theorem C4_create_out_session_start_time (f : H5File) (in_nwbfile : NWBFile)
    (freshId : Nat) (v0 : PyVal) (s0 idStr descStr sstStr : String) (d1 : PyDateTime)
    (hv0 : f.file_create_date[0]? = some v0)
    (hs0 : _unicode v0 = .ok s0)
    (hd1 : in_nwbfile.file_create_date[0]? = some d1)
    (hsst : _unicode f.session_start_time = .ok sstStr)
    (hid : _unicode f.identifier = .ok idStr)
    (hdesc : _unicode f.session_description = .ok descStr) :
    ∃ out, create_out_nwbfile f in_nwbfile freshId = .ok out
      ∧ out.session_start_time = some (tzLocalize "US/Pacific"
          (strptime sstStr strptime_format)) := by
  refine ⟨{ id := freshId
            identifier := idStr
            session_description := descStr
            file_create_date := [tzLocalize "US/Pacific" (strptime s0 strptime_format),
                                 d1, PyDateTime.nowLocal]
            session_start_time := some (tzLocalize "US/Pacific"
              (strptime sstStr strptime_format)) }, ?_, rfl⟩
  simp [create_out_nwbfile, pyIndex, hv0, hs0, hd1, hsst, hid, hdesc]

/-- C4, witness on the sample files. -/
theorem C4_create_out_session_start_time_witness :
    ∃ out, create_out_nwbfile sampleH5 sampleSuite2p 2 = .ok out
      ∧ out.session_start_time = some (tzLocalize "US/Pacific"
          (strptime "Tue Jan 26 12:00:00 2016" strptime_format)) :=
  C4_create_out_session_start_time sampleH5 sampleSuite2p 2
    (.str "Tue Jan 26 12:28:49 2016") "Tue Jan 26 12:28:49 2016"
    "ident" "sess" "Tue Jan 26 12:00:00 2016" (.fromSuite2p 0)
    rfl rfl rfl rfl rfl rfl

/-! ### Claims C5 and C10: add_stimuli -/

@[simp] theorem h5StimTemplate_lsn (f : H5File) :
    h5StimTemplate f "locally_sparse_noise_image_stack"
      = some f.locally_sparse_noise_image_stack := rfl

@[simp] theorem h5StimTemplate_nm1 (f : H5File) :
    h5StimTemplate f "natural_movie_one_image_stack"
      = some f.natural_movie_one_image_stack := rfl

@[simp] theorem h5StimTemplate_nm2 (f : H5File) :
    h5StimTemplate f "natural_movie_two_image_stack"
      = some f.natural_movie_two_image_stack := rfl

@[simp] theorem h5StimPresentation_lsn (f : H5File) :
    h5StimPresentation f "locally_sparse_noise_stimulus"
      = some f.locally_sparse_noise_stimulus := rfl

@[simp] theorem h5StimPresentation_nm1 (f : H5File) :
    h5StimPresentation f "natural_movie_one_stimulus"
      = some f.natural_movie_one_stimulus := rfl

@[simp] theorem h5StimPresentation_nm2 (f : H5File) :
    h5StimPresentation f "natural_movie_two_stimulus"
      = some f.natural_movie_two_stimulus := rfl

@[simp] theorem pathlib_name_t_lsn :
    pathlib_name "/stimulus/templates/locally_sparse_noise_image_stack"
      = "locally_sparse_noise_image_stack" := by decide

@[simp] theorem pathlib_name_t_nm1 :
    pathlib_name "/stimulus/templates/natural_movie_one_image_stack"
      = "natural_movie_one_image_stack" := by decide

@[simp] theorem pathlib_name_t_nm2 :
    pathlib_name "/stimulus/templates/natural_movie_two_image_stack"
      = "natural_movie_two_image_stack" := by decide

@[simp] theorem pathlib_name_p_lsn :
    pathlib_name "/stimulus/presentation/locally_sparse_noise_stimulus"
      = "locally_sparse_noise_stimulus" := by decide

@[simp] theorem pathlib_name_p_nm1 :
    pathlib_name "/stimulus/presentation/natural_movie_one_stimulus"
      = "natural_movie_one_stimulus" := by decide

@[simp] theorem pathlib_name_p_nm2 :
    pathlib_name "/stimulus/presentation/natural_movie_two_stimulus"
      = "natural_movie_two_stimulus" := by decide

/-- Shared helper: the full result of `add_stimuli` when every attribute
decode succeeds.  Used by the C5 and C10 claim theorems. -/
theorem add_stimuli_result (out : NWBFile) (f : H5File)
    (fmt1 td1 tc1 pd1 pc1 fmt2 td2 tc2 pd2 pc2 fmt3 td3 tc3 pd3 pc3 sd sc : String)
    (hfmt1 : _unicode f.locally_sparse_noise_image_stack.format = .ok fmt1)
    (htd1 : _unicode f.locally_sparse_noise_image_stack.description = .ok td1)
    (htc1 : _unicode f.locally_sparse_noise_image_stack.comments = .ok tc1)
    (hpd1 : _unicode f.locally_sparse_noise_stimulus.description = .ok pd1)
    (hpc1 : _unicode f.locally_sparse_noise_stimulus.comments = .ok pc1)
    (hfmt2 : _unicode f.natural_movie_one_image_stack.format = .ok fmt2)
    (htd2 : _unicode f.natural_movie_one_image_stack.description = .ok td2)
    (htc2 : _unicode f.natural_movie_one_image_stack.comments = .ok tc2)
    (hpd2 : _unicode f.natural_movie_one_stimulus.description = .ok pd2)
    (hpc2 : _unicode f.natural_movie_one_stimulus.comments = .ok pc2)
    (hfmt3 : _unicode f.natural_movie_two_image_stack.format = .ok fmt3)
    (htd3 : _unicode f.natural_movie_two_image_stack.description = .ok td3)
    (htc3 : _unicode f.natural_movie_two_image_stack.comments = .ok tc3)
    (hpd3 : _unicode f.natural_movie_two_stimulus.description = .ok pd3)
    (hpc3 : _unicode f.natural_movie_two_stimulus.comments = .ok pc3)
    (hsd : _unicode f.spontaneous_stimulus.description = .ok sd)
    (hsc : _unicode f.spontaneous_stimulus.comments = .ok sc) :
    add_stimuli out f = .ok { out with
      stimulus_templates := out.stimulus_templates ++
        [{ name := "locally_sparse_noise_image_stack"
           data := f.locally_sparse_noise_image_stack.data
           dimension := f.locally_sparse_noise_image_stack.dimension
           field_of_view := f.locally_sparse_noise_image_stack.field_of_view
           format := fmt1
           starting_time := 0
           rate := 0
           description := td1
           comments := tc1
           distance := -1
           orientation := "N/A"
           unit := "N/A" },
         { name := "natural_movie_one_image_stack"
           data := f.natural_movie_one_image_stack.data
           dimension := f.natural_movie_one_image_stack.dimension
           field_of_view := f.natural_movie_one_image_stack.field_of_view
           format := fmt2
           starting_time := 0
           rate := 0
           description := td2
           comments := tc2
           distance := -1
           orientation := "N/A"
           unit := "N/A" },
         { name := "natural_movie_two_image_stack"
           data := f.natural_movie_two_image_stack.data
           dimension := f.natural_movie_two_image_stack.dimension
           field_of_view := f.natural_movie_two_image_stack.field_of_view
           format := fmt3
           starting_time := 0
           rate := 0
           description := td3
           comments := tc3
           distance := -1
           orientation := "N/A"
           unit := "N/A" }]
      stimulus := out.stimulus ++
        [StimulusSeries.indexSeries "locally_sparse_noise_stimulus"
           (astype_uint32 f.locally_sparse_noise_stimulus.data)
           f.locally_sparse_noise_stimulus.timestamps
           { name := "locally_sparse_noise_image_stack"
             data := f.locally_sparse_noise_image_stack.data
             dimension := f.locally_sparse_noise_image_stack.dimension
             field_of_view := f.locally_sparse_noise_image_stack.field_of_view
             format := fmt1
             starting_time := 0
             rate := 0
             description := td1
             comments := tc1
             distance := -1
             orientation := "N/A"
             unit := "N/A" }
           pd1 pc1 "N/A",
         StimulusSeries.indexSeries "natural_movie_one_stimulus"
           (astype_uint32 f.natural_movie_one_stimulus.data)
           f.natural_movie_one_stimulus.timestamps
           { name := "natural_movie_one_image_stack"
             data := f.natural_movie_one_image_stack.data
             dimension := f.natural_movie_one_image_stack.dimension
             field_of_view := f.natural_movie_one_image_stack.field_of_view
             format := fmt2
             starting_time := 0
             rate := 0
             description := td2
             comments := tc2
             distance := -1
             orientation := "N/A"
             unit := "N/A" }
           pd2 pc2 "N/A",
         StimulusSeries.indexSeries "natural_movie_two_stimulus"
           (astype_uint32 f.natural_movie_two_stimulus.data)
           f.natural_movie_two_stimulus.timestamps
           { name := "natural_movie_two_image_stack"
             data := f.natural_movie_two_image_stack.data
             dimension := f.natural_movie_two_image_stack.dimension
             field_of_view := f.natural_movie_two_image_stack.field_of_view
             format := fmt3
             starting_time := 0
             rate := 0
             description := td3
             comments := tc3
             distance := -1
             orientation := "N/A"
             unit := "N/A" }
           pd3 pc3 "N/A",
         StimulusSeries.intervalSeries "spontaneous_stimulus"
           f.spontaneous_stimulus.data
           f.spontaneous_stimulus.timestamps
           sd sc] } := by
  simp [add_stimuli, add_stimulus, hfmt1, htd1, htc1, hpd1, hpc1,
        hfmt2, htd2, htc2, hpd2, hpc2, hfmt3, htd3, htc3, hpd3, hpc3, hsd, hsc]

/-- C5.  `add_stimuli` adds exactly four stimulus series: three
IndexSeries named locally_sparse_noise_stimulus, natural_movie_one_stimulus
and natural_movie_two_stimulus, each linked via `indexed_timeseries` to an
OpticalSeries template that was added to the template collection from the
corresponding legacy image stack, and one IntervalSeries named
spontaneous_stimulus with no template; each of the four carries the legacy
description and comments attributes. -/
theorem C5_add_stimuli_four_series (out : NWBFile) (f : H5File)
    (fmt1 td1 tc1 pd1 pc1 fmt2 td2 tc2 pd2 pc2 fmt3 td3 tc3 pd3 pc3 sd sc : String)
    (hfmt1 : _unicode f.locally_sparse_noise_image_stack.format = .ok fmt1)
    (htd1 : _unicode f.locally_sparse_noise_image_stack.description = .ok td1)
    (htc1 : _unicode f.locally_sparse_noise_image_stack.comments = .ok tc1)
    (hpd1 : _unicode f.locally_sparse_noise_stimulus.description = .ok pd1)
    (hpc1 : _unicode f.locally_sparse_noise_stimulus.comments = .ok pc1)
    (hfmt2 : _unicode f.natural_movie_one_image_stack.format = .ok fmt2)
    (htd2 : _unicode f.natural_movie_one_image_stack.description = .ok td2)
    (htc2 : _unicode f.natural_movie_one_image_stack.comments = .ok tc2)
    (hpd2 : _unicode f.natural_movie_one_stimulus.description = .ok pd2)
    (hpc2 : _unicode f.natural_movie_one_stimulus.comments = .ok pc2)
    (hfmt3 : _unicode f.natural_movie_two_image_stack.format = .ok fmt3)
    (htd3 : _unicode f.natural_movie_two_image_stack.description = .ok td3)
    (htc3 : _unicode f.natural_movie_two_image_stack.comments = .ok tc3)
    (hpd3 : _unicode f.natural_movie_two_stimulus.description = .ok pd3)
    (hpc3 : _unicode f.natural_movie_two_stimulus.comments = .ok pc3)
    (hsd : _unicode f.spontaneous_stimulus.description = .ok sd)
    (hsc : _unicode f.spontaneous_stimulus.comments = .ok sc) :
    ∃ (T1 T2 T3 : OpticalSeries) (out2 : NWBFile),
      add_stimuli out f = .ok out2
      ∧ out2.stimulus_templates = out.stimulus_templates ++ [T1, T2, T3]
      ∧ out2.stimulus = out.stimulus ++
          [StimulusSeries.indexSeries "locally_sparse_noise_stimulus"
             (astype_uint32 f.locally_sparse_noise_stimulus.data)
             f.locally_sparse_noise_stimulus.timestamps T1 pd1 pc1 "N/A",
           StimulusSeries.indexSeries "natural_movie_one_stimulus"
             (astype_uint32 f.natural_movie_one_stimulus.data)
             f.natural_movie_one_stimulus.timestamps T2 pd2 pc2 "N/A",
           StimulusSeries.indexSeries "natural_movie_two_stimulus"
             (astype_uint32 f.natural_movie_two_stimulus.data)
             f.natural_movie_two_stimulus.timestamps T3 pd3 pc3 "N/A",
           StimulusSeries.intervalSeries "spontaneous_stimulus"
             f.spontaneous_stimulus.data f.spontaneous_stimulus.timestamps sd sc]
      ∧ T1.name = "locally_sparse_noise_image_stack"
      ∧ T1.data = f.locally_sparse_noise_image_stack.data
      ∧ T1.description = td1 ∧ T1.comments = tc1
      ∧ T2.name = "natural_movie_one_image_stack"
      ∧ T2.data = f.natural_movie_one_image_stack.data
      ∧ T2.description = td2 ∧ T2.comments = tc2
      ∧ T3.name = "natural_movie_two_image_stack"
      ∧ T3.data = f.natural_movie_two_image_stack.data
      ∧ T3.description = td3 ∧ T3.comments = tc3 := by
  refine ⟨_, _, _, _,
    add_stimuli_result out f fmt1 td1 tc1 pd1 pc1 fmt2 td2 tc2 pd2 pc2
      fmt3 td3 tc3 pd3 pc3 sd sc hfmt1 htd1 htc1 hpd1 hpc1 hfmt2 htd2 htc2
      hpd2 hpc2 hfmt3 htd3 htc3 hpd3 hpc3 hsd hsc,
    rfl, rfl, rfl, rfl, rfl, rfl, rfl, rfl, rfl, rfl, rfl, rfl, rfl, rfl⟩

/-- C5, witness: on the sample legacy file, four stimulus series and
three templates are added. -/
theorem C5_add_stimuli_four_series_witness :
    ∃ out2, add_stimuli { id := 0 } sampleH5 = .ok out2
      ∧ out2.stimulus.length = 4 ∧ out2.stimulus_templates.length = 3 := by
  obtain ⟨T1, T2, T3, out2, h1, h2, h3, _⟩ :=
    C5_add_stimuli_four_series { id := 0 } sampleH5
      "raw" "td" "tc" "pd" "pc" "raw" "td" "tc" "pd" "pc"
      "raw" "td" "tc" "pd" "pc" "pd" "pc"
      rfl rfl rfl rfl rfl rfl rfl rfl rfl rfl rfl rfl rfl rfl rfl rfl rfl
  refine ⟨out2, h1, ?_, ?_⟩
  · rw [h3]; rfl
  · rw [h2]; rfl

/-- C10.  The data written into each of the three IndexSeries is the
legacy presentation data cast element-wise to unsigned 32-bit integers:
each value reduced modulo `2 ^ 32`.  The cast always lands in
`[0, 2 ^ 32)` and changes every negative or too-large value silently
(`add_stimuli` places no constraint on the data values, so nothing is
rejected). -/
theorem C10_index_series_uint32_cast (out : NWBFile) (f : H5File)
    (fmt1 td1 tc1 pd1 pc1 fmt2 td2 tc2 pd2 pc2 fmt3 td3 tc3 pd3 pc3 sd sc : String)
    (hfmt1 : _unicode f.locally_sparse_noise_image_stack.format = .ok fmt1)
    (htd1 : _unicode f.locally_sparse_noise_image_stack.description = .ok td1)
    (htc1 : _unicode f.locally_sparse_noise_image_stack.comments = .ok tc1)
    (hpd1 : _unicode f.locally_sparse_noise_stimulus.description = .ok pd1)
    (hpc1 : _unicode f.locally_sparse_noise_stimulus.comments = .ok pc1)
    (hfmt2 : _unicode f.natural_movie_one_image_stack.format = .ok fmt2)
    (htd2 : _unicode f.natural_movie_one_image_stack.description = .ok td2)
    (htc2 : _unicode f.natural_movie_one_image_stack.comments = .ok tc2)
    (hpd2 : _unicode f.natural_movie_one_stimulus.description = .ok pd2)
    (hpc2 : _unicode f.natural_movie_one_stimulus.comments = .ok pc2)
    (hfmt3 : _unicode f.natural_movie_two_image_stack.format = .ok fmt3)
    (htd3 : _unicode f.natural_movie_two_image_stack.description = .ok td3)
    (htc3 : _unicode f.natural_movie_two_image_stack.comments = .ok tc3)
    (hpd3 : _unicode f.natural_movie_two_stimulus.description = .ok pd3)
    (hpc3 : _unicode f.natural_movie_two_stimulus.comments = .ok pc3)
    (hsd : _unicode f.spontaneous_stimulus.description = .ok sd)
    (hsc : _unicode f.spontaneous_stimulus.comments = .ok sc) :
    (∃ (T1 T2 T3 : OpticalSeries) (out2 : NWBFile),
      add_stimuli out f = .ok out2
      ∧ out2.stimulus = out.stimulus ++
          [StimulusSeries.indexSeries "locally_sparse_noise_stimulus"
             (f.locally_sparse_noise_stimulus.data.map (fun x => x % (2 ^ 32 : Int)))
             f.locally_sparse_noise_stimulus.timestamps T1 pd1 pc1 "N/A",
           StimulusSeries.indexSeries "natural_movie_one_stimulus"
             (f.natural_movie_one_stimulus.data.map (fun x => x % (2 ^ 32 : Int)))
             f.natural_movie_one_stimulus.timestamps T2 pd2 pc2 "N/A",
           StimulusSeries.indexSeries "natural_movie_two_stimulus"
             (f.natural_movie_two_stimulus.data.map (fun x => x % (2 ^ 32 : Int)))
             f.natural_movie_two_stimulus.timestamps T3 pd3 pc3 "N/A",
           StimulusSeries.intervalSeries "spontaneous_stimulus"
             f.spontaneous_stimulus.data f.spontaneous_stimulus.timestamps sd sc])
    ∧ (∀ x : Int, astype_uint32 [x] = [x % (2 ^ 32 : Int)]
        ∧ 0 ≤ x % (2 ^ 32 : Int) ∧ x % (2 ^ 32 : Int) < 2 ^ 32
        ∧ ((x < 0 ∨ (2 ^ 32 : Int) ≤ x) → x % (2 ^ 32 : Int) ≠ x)) := by
  constructor
  · exact ⟨_, _, _, _,
      add_stimuli_result out f fmt1 td1 tc1 pd1 pc1 fmt2 td2 tc2 pd2 pc2
        fmt3 td3 tc3 pd3 pc3 sd sc hfmt1 htd1 htc1 hpd1 hpc1 hfmt2 htd2 htc2
        hpd2 hpc2 hfmt3 htd3 htc3 hpd3 hpc3 hsd hsc,
      rfl⟩
  · intro x
    have hpow : (2 ^ 32 : Int) = 4294967296 := by norm_num
    have h1 : 0 ≤ x % (2 ^ 32 : Int) := Int.emod_nonneg x (by norm_num)
    have h2 : x % (2 ^ 32 : Int) < 2 ^ 32 := Int.emod_lt_of_pos x (by norm_num)
    refine ⟨rfl, h1, h2, ?_⟩
    intro hbad heq
    rw [hpow] at h1 h2 heq
    rcases hbad with hneg | hbig
    · omega
    · rw [hpow] at hbig
      omega

/-- C10, witness: on the sample legacy file the cast applies, and it
changes the out-of-range value -1. -/
theorem C10_index_series_uint32_cast_witness :
    ∃ out2, add_stimuli { id := 0 } sampleH5 = .ok out2
      ∧ ((-1 : Int) % (2 ^ 32 : Int) ≠ -1) := by
  obtain ⟨⟨T1, T2, T3, out2, h1, _⟩, harith⟩ :=
    C10_index_series_uint32_cast { id := 0 } sampleH5
      "raw" "td" "tc" "pd" "pc" "raw" "td" "tc" "pd" "pc"
      "raw" "td" "tc" "pd" "pc" "pd" "pc"
      rfl rfl rfl rfl rfl rfl rfl rfl rfl rfl rfl rfl rfl rfl rfl rfl rfl
  exact ⟨out2, h1, (harith (-1)).2.2.2 (Or.inl (by norm_num))⟩

/-! ### Claims C6, C7 and C8: add_suite2p_output -/

/-- Lookup skips a prefix in which the key is absent. -/
theorem dlookup_append_of_none {α : Type} (k : String) (xs ys : List (String × α))
    (h : dlookup k xs = none) : dlookup k (xs ++ ys) = dlookup k ys := by
  induction xs with
  | nil => rfl
  | cons p rest ih =>
    rcases p with ⟨k2, v⟩
    by_cases hk : k = k2
    · simp [dlookup, hk] at h
    · simp only [List.cons_append, dlookup, if_neg hk] at h ⊢
      exact ih h

/-- Update passes over a prefix in which the key is absent. -/
theorem dupdate_append_of_none {α : Type} (k : String) (v : α) (xs ys : List (String × α))
    (h : dlookup k xs = none) : dupdate k v (xs ++ ys) = xs ++ dupdate k v ys := by
  induction xs with
  | nil => rfl
  | cons p rest ih =>
    rcases p with ⟨k2, w⟩
    by_cases hk : k = k2
    · simp [dlookup, hk] at h
    · simp only [dlookup, if_neg hk] at h
      simp only [List.cons_append, dupdate, if_neg hk]
      exact congrArg (fun l => (k2, w) :: l) (ih h)

/-- Updating a bound key makes lookup return the new value. -/
theorem dlookup_dupdate {α : Type} (k : String) (v : α) (m : List (String × α))
    (w : α) (h : dlookup k m = some w) : dlookup k (dupdate k v m) = some v := by
  induction m with
  | nil => cases h
  | cons p rest ih =>
    rcases p with ⟨k2, u⟩
    by_cases hk : k = k2
    · simp [dupdate, dlookup, hk]
    · simp only [dlookup, if_neg hk] at h
      simp only [dupdate, if_neg hk, dlookup]
      exact ih h

/-- Shared helper: the full result of `add_suite2p_output` when the three
suite2p containers and the segmentation chain are present, the output file
does not already hold same-named members, the grafted plane carries a
placeholder device, and the output device list contains
"2-photon microscope".  The initial `parent` pointers of the three grafted
containers are arbitrary: `reset_parent` runs before each attach. -/
theorem add_suite2p_output_result (out in_nwbfile : NWBFile)
    (m : ProcessingModule) (planes : List (String × PlaneSegmentation))
    (ps : PlaneSegmentation) (tp : TwoPhotonSeries) (ip : ImagingPlane) (d0 : String)
    (hophys : dlookup "ophys" in_nwbfile.processing = some m)
    (hiseg : dlookup "ImageSegmentation" m.interfaces
      = some (NWBInterface.imageSegmentation planes))
    (hps : dlookup "PlaneSegmentation" planes = some ps)
    (htp : dlookup "TwoPhotonSeries" in_nwbfile.acquisition = some tp)
    (hip : dlookup "ImagingPlane" in_nwbfile.imaging_planes = some ip)
    (hipdev : ip.device = some d0)
    (ho1 : dlookup "ophys" out.processing = none)
    (ho2 : dlookup "TwoPhotonSeries" out.acquisition = none)
    (ho3 : dlookup "ImagingPlane" out.imaging_planes = none)
    (hdev : out.devices.contains "2-photon microscope" = true) :
    add_suite2p_output out in_nwbfile = .ok { out with
      processing := out.processing ++ [("ophys",
        { parent := some out.id
          description := m.description
          interfaces := dupdate "ImageSegmentation"
            (NWBInterface.imageSegmentation
              (dupdate "PlaneSegmentation" { reference_images := [] } planes))
            m.interfaces })]
      acquisition := out.acquisition ++ [("TwoPhotonSeries",
        { parent := some out.id, tag := tp.tag })]
      imaging_planes := out.imaging_planes ++ [("ImagingPlane",
        { parent := some out.id, device := some "2-photon microscope", tag := ip.tag })] } := by
  have hdev2 : "2-photon microscope" ∈ out.devices := by simpa using hdev
  simp [add_suite2p_output, getKey, requireUnparented, hophys, htp, hip,
        ho1, ho2, ho3, hdev2, hipdev, hiseg, hps,
        dlookup_append_of_none, dupdate_append_of_none, dlookup, dupdate]

/-- Shared helper: when the output device list does not contain
"2-photon microscope", `add_suite2p_output` fails with the dict lookup
error for that name. -/
theorem add_suite2p_output_no_device (out in_nwbfile : NWBFile)
    (m : ProcessingModule) (tp : TwoPhotonSeries) (ip : ImagingPlane) (d0 : String)
    (hophys : dlookup "ophys" in_nwbfile.processing = some m)
    (htp : dlookup "TwoPhotonSeries" in_nwbfile.acquisition = some tp)
    (hip : dlookup "ImagingPlane" in_nwbfile.imaging_planes = some ip)
    (hipdev : ip.device = some d0)
    (ho1 : dlookup "ophys" out.processing = none)
    (ho2 : dlookup "TwoPhotonSeries" out.acquisition = none)
    (ho3 : dlookup "ImagingPlane" out.imaging_planes = none)
    (hdev : out.devices.contains "2-photon microscope" = false) :
    add_suite2p_output out in_nwbfile = .error (.keyError "2-photon microscope") := by
  have hdev2 : "2-photon microscope" ∉ out.devices := by simpa using hdev
  simp [add_suite2p_output, getKey, requireUnparented, hophys, htp, hip,
        ho1, ho2, ho3, hdev2, hipdev,
        dlookup_append_of_none, dupdate_append_of_none, dlookup, dupdate]

/-- C6.  Starting from an output file with no devices, `add_general`
creates exactly one device per key of the legacy /general/devices group
(the device list becomes the legacy key list); then `add_suite2p_output`
replaces the grafted ImagingPlane placeholder device with the output
device named exactly "2-photon microscope" when the legacy device list
contains that name, and fails with the dict lookup error (`KeyError`) when
it does not. -/
theorem C6_device_replacement (out in_nwbfile : NWBFile) (f : H5File)
    (inst sid : String)
    (m : ProcessingModule) (planes : List (String × PlaneSegmentation))
    (ps : PlaneSegmentation) (tp : TwoPhotonSeries) (ip : ImagingPlane) (d0 : String)
    (hinst : _unicode f.institution = .ok inst)
    (hsid : _unicode f.session_id = .ok sid)
    (hd0 : out.devices = [])
    (hophys : dlookup "ophys" in_nwbfile.processing = some m)
    (hiseg : dlookup "ImageSegmentation" m.interfaces
      = some (NWBInterface.imageSegmentation planes))
    (hps : dlookup "PlaneSegmentation" planes = some ps)
    (htp : dlookup "TwoPhotonSeries" in_nwbfile.acquisition = some tp)
    (hip : dlookup "ImagingPlane" in_nwbfile.imaging_planes = some ip)
    (hipdev : ip.device = some d0)
    (ho1 : dlookup "ophys" out.processing = none)
    (ho2 : dlookup "TwoPhotonSeries" out.acquisition = none)
    (ho3 : dlookup "ImagingPlane" out.imaging_planes = none) :
    ∃ out2, add_general out f = .ok out2
      ∧ out2.devices = f.devices
      ∧ (f.devices.contains "2-photon microscope" = true →
          ∃ out3 p2, add_suite2p_output out2 in_nwbfile = .ok out3
            ∧ dlookup "ImagingPlane" out3.imaging_planes = some p2
            ∧ p2.device = some "2-photon microscope")
      ∧ (f.devices.contains "2-photon microscope" = false →
          add_suite2p_output out2 in_nwbfile = .error (.keyError "2-photon microscope")) := by
  have hg : add_general out f = .ok
      { out with
        institution := some inst
        session_id := some sid
        devices := out.devices ++ f.devices } := by
    simp [add_general, hinst, hsid]
  refine ⟨_, hg, ?_, ?_, ?_⟩
  · rw [hd0, List.nil_append]
  · intro hc
    have hdev : (out.devices ++ f.devices).contains "2-photon microscope" = true := by
      rw [hd0, List.nil_append]
      exact hc
    have h := add_suite2p_output_result
      { out with
        institution := some inst
        session_id := some sid
        devices := out.devices ++ f.devices } in_nwbfile
      m planes ps tp ip d0 hophys hiseg hps htp hip hipdev ho1 ho2 ho3 hdev
    refine ⟨_, { parent := some out.id, device := some "2-photon microscope",
                 tag := ip.tag }, h, ?_, rfl⟩
    simp [dlookup_append_of_none _ _ _ ho3, dlookup]
  · intro hc
    have hdev : (out.devices ++ f.devices).contains "2-photon microscope" = false := by
      rw [hd0, List.nil_append]
      exact hc
    exact add_suite2p_output_no_device
      { out with
        institution := some inst
        session_id := some sid
        devices := out.devices ++ f.devices } in_nwbfile
      m tp ip d0 hophys htp hip hipdev ho1 ho2 ho3 hdev

/-- C6, witness: the sample legacy file declares exactly the device
"2-photon microscope", which add_general copies into the output file. -/
theorem C6_device_replacement_witness :
    ∃ out2, add_general { id := 2 } sampleH5 = .ok out2
      ∧ out2.devices = ["2-photon microscope"] := by
  obtain ⟨out2, h1, h2, _⟩ :=
    C6_device_replacement { id := 2 } sampleSuite2p sampleH5 "AIBS" "sid"
      { parent := some 1, description := "ophys module",
        interfaces := [("ImageSegmentation", .imageSegmentation
          [("PlaneSegmentation", { reference_images := [5] })])] }
      [("PlaneSegmentation", { reference_images := [5] })]
      { reference_images := [5] }
      { parent := some 1, tag := 7 }
      { parent := some 1, device := some "Microscope", tag := 3 }
      "Microscope"
      rfl rfl rfl rfl rfl rfl rfl rfl rfl rfl rfl rfl
  exact ⟨out2, h1, h2⟩

/-- C7.  `add_suite2p_output` detaches each of the three grafted
substructures (the ophys processing module, the TwoPhotonSeries
acquisition, the ImagingPlane) before attaching it: the attach guard
raises on any container whose parent is still set (first conjunct pins
that semantics), yet the graft succeeds for every initial parent value of
the three containers, because `reset_parent` runs first; afterwards each
of the three is owned by the output container. -/
theorem C7_reset_parent_before_attach (out in_nwbfile : NWBFile)
    (m : ProcessingModule) (planes : List (String × PlaneSegmentation))
    (ps : PlaneSegmentation) (tp : TwoPhotonSeries) (ip : ImagingPlane) (d0 : String)
    (hophys : dlookup "ophys" in_nwbfile.processing = some m)
    (hiseg : dlookup "ImageSegmentation" m.interfaces
      = some (NWBInterface.imageSegmentation planes))
    (hps : dlookup "PlaneSegmentation" planes = some ps)
    (htp : dlookup "TwoPhotonSeries" in_nwbfile.acquisition = some tp)
    (hip : dlookup "ImagingPlane" in_nwbfile.imaging_planes = some ip)
    (hipdev : ip.device = some d0)
    (ho1 : dlookup "ophys" out.processing = none)
    (ho2 : dlookup "TwoPhotonSeries" out.acquisition = none)
    (ho3 : dlookup "ImagingPlane" out.imaging_planes = none)
    (hdev : out.devices.contains "2-photon microscope" = true) :
    (∀ j, requireUnparented (some j)
      = .error (.valueError "cannot reassign container parent"))
    ∧ ∃ out2, add_suite2p_output out in_nwbfile = .ok out2
      ∧ (∃ m2, dlookup "ophys" out2.processing = some m2
          ∧ m2.parent = some out.id)
      ∧ (∃ t2, dlookup "TwoPhotonSeries" out2.acquisition = some t2
          ∧ t2.parent = some out.id)
      ∧ (∃ p2, dlookup "ImagingPlane" out2.imaging_planes = some p2
          ∧ p2.parent = some out.id) := by
  refine ⟨fun j => rfl, ?_⟩
  have h := add_suite2p_output_result out in_nwbfile m planes ps tp ip d0
    hophys hiseg hps htp hip hipdev ho1 ho2 ho3 hdev
  refine ⟨_, h,
    ⟨{ parent := some out.id, description := m.description,
       interfaces := dupdate "ImageSegmentation"
         (NWBInterface.imageSegmentation
           (dupdate "PlaneSegmentation" { reference_images := [] } planes))
         m.interfaces }, ?_, rfl⟩,
    ⟨{ parent := some out.id, tag := tp.tag }, ?_, rfl⟩,
    ⟨{ parent := some out.id, device := some "2-photon microscope",
       tag := ip.tag }, ?_, rfl⟩⟩
  · simp [dlookup_append_of_none _ _ _ ho1, dlookup]
  · simp [dlookup_append_of_none _ _ _ ho2, dlookup]
  · simp [dlookup_append_of_none _ _ _ ho3, dlookup]

/-- C7, witness: the sample suite2p containers start parented to the
suite2p file (id 1) and end up owned by the output file (id 2). -/
theorem C7_reset_parent_before_attach_witness :
    ∃ out2, add_suite2p_output { id := 2, devices := ["2-photon microscope"] }
        sampleSuite2p = .ok out2
      ∧ ∃ m2, dlookup "ophys" out2.processing = some m2 ∧ m2.parent = some 2 := by
  obtain ⟨_, out2, h1, hm, _, _⟩ :=
    C7_reset_parent_before_attach { id := 2, devices := ["2-photon microscope"] }
      sampleSuite2p
      { parent := some 1, description := "ophys module",
        interfaces := [("ImageSegmentation", .imageSegmentation
          [("PlaneSegmentation", { reference_images := [5] })])] }
      [("PlaneSegmentation", { reference_images := [5] })]
      { reference_images := [5] }
      { parent := some 1, tag := 7 }
      { parent := some 1, device := some "Microscope", tag := 3 }
      "Microscope"
      rfl rfl rfl rfl rfl rfl rfl rfl rfl rfl
  exact ⟨out2, h1, hm⟩

/-- C8.  After `add_suite2p_output`, the reference_images collection of
the grafted PlaneSegmentation (reached through the "ophys" processing
module and its ImageSegmentation) is empty, whatever list `ps` of
reference images the suite2p file held. -/
theorem C8_reference_images_cleared (out in_nwbfile : NWBFile)
    (m : ProcessingModule) (planes : List (String × PlaneSegmentation))
    (ps : PlaneSegmentation) (tp : TwoPhotonSeries) (ip : ImagingPlane) (d0 : String)
    (hophys : dlookup "ophys" in_nwbfile.processing = some m)
    (hiseg : dlookup "ImageSegmentation" m.interfaces
      = some (NWBInterface.imageSegmentation planes))
    (hps : dlookup "PlaneSegmentation" planes = some ps)
    (htp : dlookup "TwoPhotonSeries" in_nwbfile.acquisition = some tp)
    (hip : dlookup "ImagingPlane" in_nwbfile.imaging_planes = some ip)
    (hipdev : ip.device = some d0)
    (ho1 : dlookup "ophys" out.processing = none)
    (ho2 : dlookup "TwoPhotonSeries" out.acquisition = none)
    (ho3 : dlookup "ImagingPlane" out.imaging_planes = none)
    (hdev : out.devices.contains "2-photon microscope" = true) :
    ∃ (out2 : NWBFile) (M2 : ProcessingModule)
      (planes2 : List (String × PlaneSegmentation)),
      add_suite2p_output out in_nwbfile = .ok out2
      ∧ dlookup "ophys" out2.processing = some M2
      ∧ dlookup "ImageSegmentation" M2.interfaces
          = some (NWBInterface.imageSegmentation planes2)
      ∧ dlookup "PlaneSegmentation" planes2 = some { reference_images := [] } := by
  have h := add_suite2p_output_result out in_nwbfile m planes ps tp ip d0
    hophys hiseg hps htp hip hipdev ho1 ho2 ho3 hdev
  refine ⟨_,
    { parent := some out.id, description := m.description,
      interfaces := dupdate "ImageSegmentation"
        (NWBInterface.imageSegmentation
          (dupdate "PlaneSegmentation" { reference_images := [] } planes))
        m.interfaces },
    dupdate "PlaneSegmentation" { reference_images := [] } planes,
    h, ?_, ?_, ?_⟩
  · simp [dlookup_append_of_none _ _ _ ho1, dlookup]
  · exact dlookup_dupdate _ _ _ _ hiseg
  · exact dlookup_dupdate _ _ _ _ hps

/-- C8, witness: the sample suite2p PlaneSegmentation holds one reference
image and comes out empty. -/
theorem C8_reference_images_cleared_witness :
    ∃ (out2 : NWBFile) (M2 : ProcessingModule)
      (planes2 : List (String × PlaneSegmentation)),
      add_suite2p_output { id := 2, devices := ["2-photon microscope"] }
          sampleSuite2p = .ok out2
      ∧ dlookup "ophys" out2.processing = some M2
      ∧ dlookup "ImageSegmentation" M2.interfaces
          = some (NWBInterface.imageSegmentation planes2)
      ∧ dlookup "PlaneSegmentation" planes2 = some { reference_images := [] } :=
  C8_reference_images_cleared { id := 2, devices := ["2-photon microscope"] }
    sampleSuite2p
    { parent := some 1, description := "ophys module",
      interfaces := [("ImageSegmentation", .imageSegmentation
        [("PlaneSegmentation", { reference_images := [5] })])] }
    [("PlaneSegmentation", { reference_images := [5] })]
    { reference_images := [5] }
    { parent := some 1, tag := 7 }
    { parent := some 1, device := some "Microscope", tag := 3 }
    "Microscope"
    rfl rfl rfl rfl rfl rfl rfl rfl rfl rfl

/-! ### Claim C2: the temporary file of main -/

/-- takeWhile stops exactly at the first failing element. -/
theorem takeWhile_append_stop (p : Char → Bool) (x : Char) (b : List Char)
    (hx : p x = false) :
    ∀ a : List Char, (∀ c ∈ a, p c = true) → (a ++ x :: b).takeWhile p = a := by
  intro a
  induction a with
  | nil =>
    intro _
    simp [List.takeWhile_cons, hx]
  | cons c rest ih =>
    intro ha
    have hc : p c = true := ha c (List.mem_cons_self c rest)
    simp only [List.cons_append, List.takeWhile_cons, hc, if_true, List.cons.injEq, true_and]
    exact ih (fun d hd => ha d (List.mem_cons_of_mem c hd))

/-- The tail component of `os_path_split`, written out. -/
theorem os_path_split_snd (s : String) :
    (os_path_split s).2
      = String.mk ((s.data.reverse.takeWhile (fun c => c ≠ '/')).reverse) := rfl

/-- The tail of `os_path_split` is the slash-free suffix after the last
slash. -/
theorem os_path_split_snd_of_data (s : String) (l t : List Char)
    (hs : s.data = l ++ '/' :: t) (ht : ∀ c ∈ t, c ≠ '/') :
    (os_path_split s).2 = String.mk t := by
  rw [os_path_split_snd, hs]
  have h1 : (l ++ '/' :: t).reverse = t.reverse ++ '/' :: l.reverse := by
    simp [List.reverse_append]
  rw [h1, takeWhile_append_stop _ '/' l.reverse (by simp) t.reverse
        (fun c hc => by simpa using ht c (List.mem_reverse.mp hc)),
      List.reverse_reverse]

/-- The temporary path always has the fixed file name "temp.nwb". -/
theorem temp_merged_path_basename (p : String) :
    (os_path_split (temp_merged_path p)).2 = "temp.nwb" := by
  unfold temp_merged_path os_path_join
  have hsw : startsWithSlash "temp.nwb" = false := rfl
  rw [hsw]
  simp only [Bool.false_eq_true, if_false]
  by_cases he : (os_path_split p).1 = ""
  · rw [if_pos (by simp [he])]
    rw [he]
    decide
  · by_cases hsl : endsWithSlash (os_path_split p).1 = true
    · rw [if_pos (by simp [hsl])]
      unfold endsWithSlash at hsl
      cases hgl : (os_path_split p).1.data.getLast? with
      | none => rw [hgl] at hsl; cases hsl
      | some c =>
        rw [hgl] at hsl
        have hc : c = '/' := by simpa using hsl
        have hne : (os_path_split p).1.data ≠ [] := by
          intro h0; rw [h0] at hgl; cases hgl
        have hlast : (os_path_split p).1.data.getLast hne = '/' := by
          have h2 := List.getLast?_eq_getLast (os_path_split p).1.data hne
          rw [hgl] at h2
          rw [hc] at h2
          exact (Option.some.injEq _ _).mp h2.symm
        have hdecomp : (os_path_split p).1.data
            = (os_path_split p).1.data.dropLast ++ ['/'] := by
          rw [← hlast]
          exact (List.dropLast_append_getLast hne).symm
        refine os_path_split_snd_of_data _ (os_path_split p).1.data.dropLast
          ("temp.nwb".data) ?_ (by decide)
        rw [String.data_append, hdecomp]
        simp [List.append_assoc]
    · rw [if_neg (by simp [he, hsl])]
      refine os_path_split_snd_of_data _ (os_path_split p).1.data
        ("temp.nwb".data) ?_ (by decide)
      rw [String.data_append, String.data_append]
      simp

/-- Shared helper: the three possible outcomes of `main`: failure before
the temporary file is written, failure after (the temporary file remains),
or success (the export target is created and the temporary file erased). -/
theorem main_shape (f : H5File) (inf : NWBFile) (p : String) (i : Nat) :
    (∃ e, AppendSuite2p.main f inf p i = ([], some e))
    ∨ (∃ e, AppendSuite2p.main f inf p i = ([temp_merged_path p], some e))
    ∨ (AppendSuite2p.main f inf p i
        = ((if p ∈ [temp_merged_path p] then [temp_merged_path p]
            else [temp_merged_path p, p]).erase (temp_merged_path p), none)) := by
  cases h1 : create_out_nwbfile f inf i with
  | error e => exact Or.inl ⟨e, by simp [AppendSuite2p.main, h1]⟩
  | ok o1 =>
    cases h2 : add_running_speed_timeseries o1 f with
    | error e => exact Or.inl ⟨e, by simp [AppendSuite2p.main, h1, h2]⟩
    | ok o2 =>
      cases h3 : add_stimuli o2 f with
      | error e => exact Or.inl ⟨e, by simp [AppendSuite2p.main, h1, h2, h3]⟩
      | ok o3 =>
        cases h4 : add_subject o3 f with
        | error e => exact Or.inl ⟨e, by simp [AppendSuite2p.main, h1, h2, h3, h4]⟩
        | ok o4 =>
          cases h5 : add_general o4 f with
          | error e => exact Or.inl ⟨e, by simp [AppendSuite2p.main, h1, h2, h3, h4, h5]⟩
          | ok o5 =>
            cases h6 : add_suite2p_output o5 inf with
            | error e =>
              exact Or.inr (Or.inl ⟨e, by simp [AppendSuite2p.main, h1, h2, h3, h4, h5, h6]⟩)
            | ok oe =>
              exact Or.inr (Or.inr (by simp [AppendSuite2p.main, h1, h2, h3, h4, h5, h6]))

/-- C2.  `main` computes its temporary path by joining the directory
component of the output path with the fixed name "temp.nwb" (first and
second conjuncts: the basename of the temporary path is always
"temp.nwb", and the temporary path depends only on the directory
component, not on the output filename).  When the pipeline completes
without an exception the temporary file is no longer among the files left
on disk; when any step raises, the run leaves either no file (failure
before the temporary write) or exactly the temporary file; in particular a
failure in `add_suite2p_output`, after the temporary file was written,
leaves exactly the temporary file behind, with the exception propagated. -/
theorem C2_main_temp_file (f : H5File) (in_nwbfile : NWBFile) (p : String)
    (freshId : Nat) :
    ((os_path_split (temp_merged_path p)).2 = "temp.nwb")
    ∧ (∀ q, (os_path_split q).1 = (os_path_split p).1 →
        temp_merged_path q = temp_merged_path p)
    ∧ ((AppendSuite2p.main f in_nwbfile p freshId).2 = none →
        temp_merged_path p ∉ (AppendSuite2p.main f in_nwbfile p freshId).1)
    ∧ (∀ e, (AppendSuite2p.main f in_nwbfile p freshId).2 = some e →
        (AppendSuite2p.main f in_nwbfile p freshId).1 = []
          ∨ (AppendSuite2p.main f in_nwbfile p freshId).1 = [temp_merged_path p])
    ∧ (∀ o1 o2 o3 o4 o5 e,
        create_out_nwbfile f in_nwbfile freshId = .ok o1 →
        add_running_speed_timeseries o1 f = .ok o2 →
        add_stimuli o2 f = .ok o3 →
        add_subject o3 f = .ok o4 →
        add_general o4 f = .ok o5 →
        add_suite2p_output o5 in_nwbfile = .error e →
        AppendSuite2p.main f in_nwbfile p freshId
          = ([temp_merged_path p], some e)) := by
  refine ⟨temp_merged_path_basename p, ?_, ?_, ?_, ?_⟩
  · intro q hq
    unfold temp_merged_path
    rw [hq]
  · intro hnone
    rcases main_shape f in_nwbfile p freshId with ⟨e, he⟩ | ⟨e, he⟩ | he
    · rw [he] at hnone; cases hnone
    · rw [he] at hnone; cases hnone
    · rw [he]
      by_cases hp : p ∈ [temp_merged_path p]
      · simp only [if_pos hp, List.erase_cons_head]
        exact List.not_mem_nil _
      · simp only [if_neg hp, List.erase_cons_head]
        intro hmem
        have heq : temp_merged_path p = p := List.mem_singleton.mp hmem
        exact hp (List.mem_singleton.mpr heq.symm)
  · intro e he2
    rcases main_shape f in_nwbfile p freshId with ⟨e2, hsh⟩ | ⟨e2, hsh⟩ | hsh
    · left; rw [hsh]
    · right; rw [hsh]
    · rw [hsh] at he2; cases he2
  · intro o1 o2 o3 o4 o5 e h1 h2 h3 h4 h5 h6
    simp [AppendSuite2p.main, h1, h2, h3, h4, h5, h6]

/-- C2, witness: on a concrete output path the temporary file name is
"temp.nwb". -/
theorem C2_main_temp_file_witness :
    (os_path_split (temp_merged_path "out/final.nwb")).2 = "temp.nwb" :=
  (C2_main_temp_file sampleH5 sampleSuite2p "out/final.nwb" 2).1
